import Mathlib

/-!
Shallow embedding of the Stripe-backend webhook reconciliation subsystem.

The definitions below are translated from:
- src/src/controllers/stripeWebhookController.js (signature check, event switch,
  updateCompanySubscriptionStatus, getAccessLevelFromStripePlan),
- src/src/controllers/stripeController.js (updateTransactionInternalStatus,
  getTransactionById),
- the PaymentTransaction Sequelize model (ENUM column value sets) and the
  Company Sequelize model.

Conventions of the embedding:
- Database tables are lists of records; `Model.update` with a WHERE clause is a
  map over the list; `findOne`/`findByPk` is `List.find?`.
- A JavaScript value that may be `undefined`/`null` is an `Option`; the string
  `""` and `none` are both falsy, captured by `truthyStr`.
- A thrown-and-uncaught exception is surfaced as `some errMsg` in the second
  component of a handler result; the `asyncHandler` wrapper turns it into a
  server-error response (Express error handler, 500-class).
- External effects (the processor's subscription-retrieve API, the
  logging/notification HTTP sinks, an injected database fault) are an oracle
  record `World` passed to the handler.
-/

namespace StripeBackend

/-- JavaScript truthiness for an optional string: `undefined`/`null` and the
empty string are falsy; any other string is truthy. -/
def truthyStr (o : Option String) : Option String :=
  match o with
  | some s => if s = "" then none else some s
  | none => none

/-- Value set of the `status` ENUM column of the PaymentTransaction model. -/
def statusEnum : List String :=
  ["pending", "succeeded", "failed", "canceled", "refunded"]

/-- Value set of the `internalStatus` ENUM column of the PaymentTransaction
model. Note the member is 'rejected', not 'declined'. -/
def internalStatusEnum : List String :=
  ["awaiting_approval", "approved", "rejected", "fulfilled", "canceled_by_business"]

/-- A row of the payment_transactions table (PaymentTransaction model). -/
structure PaymentTransaction where
  id : String
  companyId : String
  customer : String
  amount : Int
  currency : String
  stripePaymentIntentId : String
  stripeSubscriptionId : Option String
  status : String
  internalStatus : String
  description : Option String
  metadata : List (String × String)
  deriving Repr, DecidableEq

/-- A row of the companies table (Company model). `subscriptionExpiresAt` is
kept in epoch milliseconds as produced by `new Date(seconds * 1000)`. -/
structure Company where
  id : String
  name : String
  email : String
  stripeAccountId : Option String
  stripeCustomerId : Option String
  stripeSubscriptionId : Option String
  subscriptionStatus : Option String
  accessLevel : String
  subscriptionExpiresAt : Option Int
  deriving Repr, DecidableEq

/-- The two tables the webhook controller touches (`req.db`). -/
structure DbState where
  companies : List Company
  transactions : List PaymentTransaction
  deriving Repr, DecidableEq

/-- The environment variables the controllers read. -/
structure Env where
  STRIPE_PRICE_BASIC_PLAN_ID : Option String
  STRIPE_PRICE_PREMIUM_PLAN_ID : Option String
  LOGGING_SERVICE_URL : Option String
  NOTIFICATION_SERVICE_URL : Option String

/-- The price part of a Stripe subscription item. -/
structure SubPrice where
  id : String
  deriving Repr, DecidableEq

/-- One entry of `subscription.items.data`. -/
structure SubItem where
  price : SubPrice
  deriving Repr, DecidableEq

/-- The fields of a Stripe subscription object that
`updateCompanySubscriptionStatus` reads, plus `customer`, which the callers
read to pick the lookup key. `items = none` models an absent `items` field. -/
structure SubscriptionData where
  id : String
  customer : Option String
  status : String
  items : Option (List SubItem)
  current_period_end : Option Int
  deriving Repr, DecidableEq

/-- Outcomes of the external world during one webhook delivery:
- `companyDbFails`: the Company findOne/update inside
  `updateCompanySubscriptionStatus` raises (models a database error there);
- `notificationFails` / `loggingFails`: the axios.post to the notification /
  logging sink rejects;
- `retrieve`: the processor's `stripe.subscriptions.retrieve` API, `none`
  meaning the call raises;
- `nowSeconds`: `Math.floor(Date.now() / 1000)`. -/
structure World where
  companyDbFails : Bool
  notificationFails : Bool
  loggingFails : Bool
  retrieve : String → Option SubscriptionData
  nowSeconds : Int

/-- Embeds `getAccessLevelFromStripePlan` (stripeWebhookController.js:38). A
switch over strict equality with the two configured price ids; an unset
environment variable (`none`) matches no string. -/
def getAccessLevelFromStripePlan (env : Env) (stripePriceId : String) : String :=
  if env.STRIPE_PRICE_BASIC_PLAN_ID = some stripePriceId then "basic"
  else if env.STRIPE_PRICE_PREMIUM_PLAN_ID = some stripePriceId then "premium"
  else "free"

/-- The new field values `updateCompanySubscriptionStatus` writes to the found
company row (stripeWebhookController.js:72-94): subscription id, incoming
status, access level (plan mapping with the canceled/unpaid override), and the
period end converted from epoch seconds to a Date (falsy timestamp gives
null). -/
def applyCompanyUpdate (env : Env) (subscriptionData : SubscriptionData)
    (c : Company) : Company :=
  let newStatus := subscriptionData.status
  let currentPeriodEnd : Option Int :=
    match subscriptionData.current_period_end with
    | some t => if t = 0 then none else some (t * 1000)
    | none => none
  let planLevel : String :=
    match subscriptionData.items with
    | some (item :: _) => getAccessLevelFromStripePlan env item.price.id
    | _ => "free"
  let newAccessLevel : String :=
    if newStatus = "canceled" ∨ newStatus = "unpaid" then "free" else planLevel
  { c with
      stripeSubscriptionId := some subscriptionData.id,
      subscriptionStatus := some newStatus,
      accessLevel := newAccessLevel,
      subscriptionExpiresAt := currentPeriodEnd }

/-- The body of `updateCompanySubscriptionStatus` (stripeWebhookController.js:
60-97), before the surrounding catch: raises (`Except.error`) when the injected
database fault fires; otherwise finds the company by `stripeCustomerId` (a
missing company is a warn-and-return no-op) and updates the found row. -/
def updateCompanySubscriptionStatusBody (env : Env) (world : World)
    (companies : List Company) (stripeCustomerId : Option String)
    (subscriptionData : SubscriptionData) : Except String (List Company) :=
  if world.companyDbFails then
    .error "DB error in updateCompanySubscriptionStatus"
  else
    match companies.find? (fun c => c.stripeCustomerId = stripeCustomerId) with
    | none => .ok companies
    | some company =>
      .ok (companies.map (fun c =>
        if c.id = company.id then applyCompanyUpdate env subscriptionData c else c))

/-- Embeds `updateCompanySubscriptionStatus` (stripeWebhookController.js:59-101).
The whole body sits in try/catch whose catch only logs, so every internal error
is swallowed and the function returns normally; the single-row UPDATE is atomic,
so on an error the table is unchanged. -/
def updateCompanySubscriptionStatus (env : Env) (world : World)
    (companies : List Company) (stripeCustomerId : Option String)
    (subscriptionData : SubscriptionData) : List Company :=
  match updateCompanySubscriptionStatusBody env world companies stripeCustomerId subscriptionData with
  | .ok cs => cs
  | .error _ => companies

/-- The row transformation of `PaymentTransaction.update({status, internalStatus},
{where: {stripePaymentIntentId: pid}})`: rows matching the WHERE clause get both
fields set, others are untouched. -/
def applyPaymentUpdate (status internalStatus pid : String)
    (t : PaymentTransaction) : PaymentTransaction :=
  if t.stripePaymentIntentId = pid then
    { t with status := status, internalStatus := internalStatus }
  else t

/-- Embeds `PaymentTransaction.update` as used by the webhook handler. The
model declares `status` and `internalStatus` as ENUM columns, so an UPDATE
whose SET value is outside the column's value set is rejected by the
database/ORM and the awaited call raises, changing no row. -/
def paymentTransactionUpdate (status internalStatus pid : String)
    (ts : List PaymentTransaction) : Except String (List PaymentTransaction) :=
  if status ∈ statusEnum ∧ internalStatus ∈ internalStatusEnum then
    .ok (ts.map (applyPaymentUpdate status internalStatus pid))
  else
    .error "invalid input value for enum"

/-- The fields of `event.data.object` read by the webhook switch. Absent
fields are `none`. For payment-intent events `id` is the payment-intent id;
for subscription events the object is the subscription itself. -/
structure EventDataObject where
  id : String
  customer : Option String
  customer_email : Option String
  mode : Option String
  subscription : Option String
  payment_intent : Option String
  billing_reason : Option String
  status : Option String
  items : Option (List SubItem)
  current_period_end : Option Int
  deriving Repr, DecidableEq

/-- A verified Stripe event envelope, as produced by
`stripe.webhooks.constructEvent`. `data_object` is `event.data.object`. -/
structure StripeEvent where
  type : String
  id : String
  livemode : Bool
  data_object : EventDataObject
  deriving Repr, DecidableEq

/-- For `customer.subscription.*` events `event.data.object` is itself the
subscription object handed to `updateCompanySubscriptionStatus`. A missing
`status` field is encoded as `""` (like `undefined`, it compares unequal to
every status literal). -/
def subscriptionOfDataObject (d : EventDataObject) : SubscriptionData :=
  { id := d.id
    customer := d.customer
    status := d.status.getD ""
    items := d.items
    current_period_end := d.current_period_end }

/-- The synthesized terminal payload the `customer.subscription.deleted` case
builds (stripeWebhookController.js:209-214): status canceled, the basic plan id
(or the literal "free" when that environment variable is unset/empty), period
end now. -/
def deletedSubscriptionPayload (env : Env) (world : World)
    (d : EventDataObject) : SubscriptionData :=
  { id := d.id
    customer := none
    status := "canceled"
    items := some [{ price := { id := (truthyStr env.STRIPE_PRICE_BASIC_PLAN_ID).getD "free" } }]
    current_period_end := some world.nowSeconds }

/-- Embeds the switch of `handleWebhook` (stripeWebhookController.js:153-304).
Returns the resulting database state and `some msg` when an exception escaped
the case (an awaited call raising outside any try/catch). Notes on fidelity:
- the welcome/cancellation notifications of `customer.subscription.created`
  and `customer.subscription.deleted` sit inside try/catch (lines 189-198,
  216-225), so their failure has no effect on state or control flow and the
  corresponding cases do not consult `world.notificationFails`;
- the payment-failure notification of `invoice.payment_failed` (line 245) is
  awaited with NO surrounding try/catch, so its failure escapes;
- `stripe.subscriptions.retrieve` is awaited without try/catch everywhere, so
  a raising retrieve escapes. -/
def handleEvent (env : Env) (world : World) (event : StripeEvent)
    (st : DbState) : DbState × Option String :=
  let d := event.data_object
  if event.type = "checkout.session.completed" then
    match d.mode, truthyStr d.subscription, truthyStr d.payment_intent with
    | some "subscription", some sid, _ =>
      match world.retrieve sid with
      | none => (st, some "subscriptions.retrieve failed")
      | some sub =>
        ({ st with companies :=
            updateCompanySubscriptionStatus env world st.companies sub.customer sub }, none)
    | some "payment", _, some pid =>
      match paymentTransactionUpdate "succeeded" "awaiting_approval" pid st.transactions with
      | .ok ts => ({ st with transactions := ts }, none)
      | .error e => (st, some e)
    | _, _, _ => (st, none)
  else if event.type = "customer.subscription.created" then
    let cs := updateCompanySubscriptionStatus env world st.companies d.customer
      (subscriptionOfDataObject d)
    ({ st with companies := cs }, none)
  else if event.type = "customer.subscription.updated" then
    let cs := updateCompanySubscriptionStatus env world st.companies d.customer
      (subscriptionOfDataObject d)
    ({ st with companies := cs }, none)
  else if event.type = "customer.subscription.deleted" then
    let cs := updateCompanySubscriptionStatus env world st.companies d.customer
      (deletedSubscriptionPayload env world d)
    ({ st with companies := cs }, none)
  else if event.type = "invoice.paid" then
    if d.billing_reason = some "subscription_create" ∨
        d.billing_reason = some "subscription_cycle" then
      match d.subscription with
      | none => (st, some "subscriptions.retrieve failed")
      | some sid =>
        match world.retrieve sid with
        | none => (st, some "subscriptions.retrieve failed")
        | some sub =>
          ({ st with companies :=
              updateCompanySubscriptionStatus env world st.companies sub.customer sub }, none)
    else (st, none)
  else if event.type = "invoice.payment_failed" then
    match truthyStr d.subscription with
    | none => (st, none)
    | some sid =>
      match world.retrieve sid with
      | none => (st, some "subscriptions.retrieve failed")
      | some sub =>
        let st1 := { st with companies :=
          updateCompanySubscriptionStatus env world st.companies sub.customer sub }
        if (truthyStr env.NOTIFICATION_SERVICE_URL).isSome ∧ world.notificationFails then
          (st1, some "notification post failed")
        else (st1, none)
  else if event.type = "payment_intent.succeeded" then
    match paymentTransactionUpdate "succeeded" "awaiting_approval" d.id st.transactions with
    | .ok ts => ({ st with transactions := ts }, none)
    | .error e => (st, some e)
  else if event.type = "payment_intent.payment_failed" then
    match paymentTransactionUpdate "failed" "declined" d.id st.transactions with
    | .ok ts => ({ st with transactions := ts }, none)
    | .error e => (st, some e)
  else
    (st, none)

/-- Responses of the webhook endpoint: the 400 sent on signature failure, the
200 `{received: true}` acknowledgment, or the server error produced when an
exception escapes to the Express error handler via `asyncHandler`. -/
inductive WebhookResponse where
  | badRequest (msg : String)
  | received
  | serverError (msg : String)
  deriving Repr, DecidableEq

/-- Embeds `exports.handleWebhook` (stripeWebhookController.js:115-306).
`verifyResult` is the outcome of `stripe.webhooks.constructEvent`: `none`
models a verification failure (missing/tampered signature, stale timestamp),
answered with 400 before anything else runs. The axios.post to
LOGGING_SERVICE_URL (lines 134-150) sits inside try/catch and touches no
database state, so its outcome (`world.loggingFails`) affects neither the
state nor the response and the definition does not consult the flag. -/
def handleWebhook (env : Env) (world : World) (verifyResult : Option StripeEvent)
    (st : DbState) : WebhookResponse × DbState :=
  match verifyResult with
  | none => (.badRequest "Webhook Error", st)
  | some event =>
    let r := handleEvent env world event st
    match r.2 with
    | none => (.received, r.1)
    | some e => (.serverError e, r.1)

/-- The closed set the manual internal-status endpoint validates against
(stripeController.js:237). Note it contains 'declined', while the model's
ENUM column contains 'rejected'. -/
def allowedInternalStatuses : List String :=
  ["awaiting_approval", "approved", "declined", "fulfilled", "canceled_by_business"]

/-- The JavaScript object spread on an association list: every existing key
keeps its place (its value replaced when the key is `k`); a fresh key is
appended at the end. -/
def setMeta (m : List (String × String)) (k v : String) : List (String × String) :=
  if m.any (fun p => p.1 = k) then
    m.map (fun p => if p.1 = k then (k, v) else p)
  else m ++ [(k, v)]

/-- Keys of a metadata association list. -/
def metaKeys (m : List (String × String)) : List String :=
  m.map Prod.fst

/-- Request of PUT /transactions/:transactionId/status: the path parameter and
the optional body fields. -/
structure UpdateStatusRequest where
  transactionId : String
  internalStatus : Option String
  notes : Option String
  deriving Repr, DecidableEq

/-- Responses of `updateTransactionInternalStatus`: 400 validation error, 404,
200 with the updated transaction, or a server error when `transaction.save()`
raises. -/
inductive UpdateStatusResponse where
  | badRequest (msg : String)
  | notFound (msg : String)
  | updated (t : PaymentTransaction)
  | serverError (msg : String)
  deriving Repr, DecidableEq

/-- The in-memory mutation the endpoint performs on the loaded row before
saving: set `internalStatus`; when `notes` is truthy, spread the old metadata
and set the `internalNotes` key (stripeController.js:253-257). -/
def applyInternalStatusUpdate (s : String) (notes : Option String)
    (t : PaymentTransaction) : PaymentTransaction :=
  let t1 := { t with internalStatus := s }
  match truthyStr notes with
  | some n => { t1 with metadata := setMeta t1.metadata "internalNotes" n }
  | none => t1

/-- Embeds `exports.updateTransactionInternalStatus` (stripeController.js:
231-265): reject a falsy or non-member `internalStatus` with 400 before any
row is read; load by primary key (404 if absent); set the field and merge the
note; `transaction.save()` commits unless the value violates the column's
ENUM, in which case the awaited save raises (no try/catch here, so the error
reaches the Express error handler) and the table is unchanged. -/
def updateTransactionInternalStatus (req : UpdateStatusRequest) (st : DbState) :
    UpdateStatusResponse × DbState :=
  match truthyStr req.internalStatus with
  | none => (.badRequest "Invalid or missing internalStatus", st)
  | some s =>
    if s ∉ allowedInternalStatuses then
      (.badRequest "Invalid or missing internalStatus", st)
    else
      match st.transactions.find? (fun t => t.id = req.transactionId) with
      | none => (.notFound "Payment transaction not found.", st)
      | some transaction =>
        let t2 := applyInternalStatusUpdate s req.notes transaction
        if s ∈ internalStatusEnum then
          (.updated t2,
           { st with transactions :=
              st.transactions.map (fun t => if t.id = req.transactionId then t2 else t) })
        else
          (.serverError "invalid input value for enum", st)

/-- Responses of GET /transactions/:transactionId. -/
inductive GetTransactionResponse where
  | badRequest (msg : String)
  | notFound (msg : String)
  | okTransaction (t : PaymentTransaction)
  | serverError (msg : String)
  deriving Repr, DecidableEq

/-- The lexical lookup of the identifier `transactionId` inside
`exports.getTransactionById` (stripeController.js:275-289): the handler
destructures only `PaymentTransaction` from `req.db` and never binds
`transactionId` (there is no `const { transactionId } = req.params`), so no
declaration is in scope and the lookup fails. -/
def transactionIdInScopeOfGetTransactionById : Option String := none

/-- Request of GET /transactions/:transactionId as delivered by the route. -/
structure GetTransactionRequest where
  transactionId : String
  deriving Repr, DecidableEq

/-- Embeds `exports.getTransactionById` (stripeController.js:275-289).
Evaluating the guard `if (!transactionId)` reads an unbound identifier, which
raises a ReferenceError that `asyncHandler` forwards to the Express error
handler; the request's own path parameter is never consulted. The `some`
branch spells out what the remaining source lines would do were the identifier
bound; it is unreachable. -/
def getTransactionById (_req : GetTransactionRequest) (st : DbState) :
    GetTransactionResponse × DbState :=
  match transactionIdInScopeOfGetTransactionById with
  | none => (.serverError "ReferenceError: transactionId is not defined", st)
  | some transactionId =>
    if transactionId = "" then
      (.badRequest "Transaction ID is required.", st)
    else
      match st.transactions.find? (fun t => t.id = transactionId) with
      | none => (.notFound "Payment transaction not found.", st)
      | some t => (.okTransaction t, st)

/-- The eight event-type labels of the webhook switch. Any other type reaches
the default case. -/
def handledEventTypes : List String :=
  ["checkout.session.completed",
   "customer.subscription.created",
   "customer.subscription.updated",
   "customer.subscription.deleted",
   "invoice.paid",
   "invoice.payment_failed",
   "payment_intent.succeeded",
   "payment_intent.payment_failed"]

/-! Concrete example inputs used to instantiate the theorems below. -/

/-- A configured environment: both plan price ids set, no sink URLs. -/
def envStd : Env :=
  { STRIPE_PRICE_BASIC_PLAN_ID := some "price_basic"
    STRIPE_PRICE_PREMIUM_PLAN_ID := some "price_premium"
    LOGGING_SERVICE_URL := none
    NOTIFICATION_SERVICE_URL := none }

/-- A benign external world: no faults, the processor knows no subscription. -/
def worldStd : World :=
  { companyDbFails := false, notificationFails := false, loggingFails := false
    retrieve := fun _ => none, nowSeconds := 1700000000 }

/-- A company row holding a premium subscription for customer cus_1. -/
def acmeCompany : Company :=
  { id := "co_1", name := "Acme", email := "contact@acme.example"
    stripeAccountId := none, stripeCustomerId := some "cus_1"
    stripeSubscriptionId := none, subscriptionStatus := some "active"
    accessLevel := "premium", subscriptionExpiresAt := none }

/-- A canceled subscription payload whose plan id maps to "premium". -/
def canceledPremiumSub : SubscriptionData :=
  { id := "sub_9", customer := some "cus_1", status := "canceled"
    items := some [{ price := { id := "price_premium" } }]
    current_period_end := some 1800000000 }

/-- A pending transaction row for payment intent pi_1. -/
def pendingTx : PaymentTransaction :=
  { id := "tx_1", companyId := "co_1", customer := "cust_9"
    amount := 2000, currency := "usd", stripePaymentIntentId := "pi_1"
    stripeSubscriptionId := none, status := "pending"
    internalStatus := "awaiting_approval", description := none, metadata := [] }

/-- A data object carrying only a payment-intent id. -/
def piDataObject : EventDataObject :=
  { id := "pi_1", customer := none, customer_email := none
    mode := none, subscription := none, payment_intent := none
    billing_reason := none, status := none, items := none
    current_period_end := none }

/-- A payment_intent.succeeded event for pi_1. -/
def piSucceededEvent : StripeEvent :=
  { type := "payment_intent.succeeded", id := "evt_1", livemode := false
    data_object := piDataObject }

/-- A store holding only the pending pi_1 transaction. -/
def piState : DbState := { companies := [], transactions := [pendingTx] }

/-- Environment with the notification sink configured (for the
invoice.payment_failed scenario). -/
def envNotify : Env :=
  { STRIPE_PRICE_BASIC_PLAN_ID := some "price_basic"
    STRIPE_PRICE_PREMIUM_PLAN_ID := some "price_premium"
    LOGGING_SERVICE_URL := none
    NOTIFICATION_SERVICE_URL := some "http://notify.example" }

/-- The subscription the processor returns for sub_1: past_due on the basic
plan, owned by customer cus_1. -/
def pastDueSub : SubscriptionData :=
  { id := "sub_1", customer := some "cus_1", status := "past_due"
    items := some [{ price := { id := "price_basic" } }]
    current_period_end := some 1700000000 }

/-- World in which the notification sink call rejects and the processor knows
subscription sub_1. -/
def worldNotifyFail : World :=
  { companyDbFails := false, notificationFails := true, loggingFails := false
    retrieve := fun sid => if sid = "sub_1" then some pastDueSub else none
    nowSeconds := 1700000000 }

/-- An invoice.payment_failed event carrying subscription sub_1. -/
def invoiceFailedEvent : StripeEvent :=
  { type := "invoice.payment_failed", id := "evt_2", livemode := false
    data_object :=
      { id := "in_1", customer := some "cus_1", customer_email := none
        mode := none, subscription := some "sub_1", payment_intent := none
        billing_reason := none, status := none, items := none
        current_period_end := none } }

/-- Store holding only the Acme company (customer cus_1). -/
def acmeState : DbState := { companies := [acmeCompany], transactions := [] }

/-- The Acme row after the sync for pastDueSub commits. -/
def acmeAfterPastDue : Company :=
  { acmeCompany with
      stripeSubscriptionId := some "sub_1"
      subscriptionStatus := some "past_due"
      accessLevel := "basic"
      subscriptionExpiresAt := some 1700000000000 }

/-- A payment_intent.payment_failed event for pi_1. -/
def piFailedEvent : StripeEvent :=
  { type := "payment_intent.payment_failed", id := "evt_3", livemode := false
    data_object := piDataObject }

/-- A transaction row carrying some metadata, target of the manual
internal-status update. -/
def orderTx : PaymentTransaction :=
  { id := "tx_8", companyId := "co_1", customer := "cust_9"
    amount := 5000, currency := "eur", stripePaymentIntentId := "pi_8"
    stripeSubscriptionId := none, status := "succeeded"
    internalStatus := "awaiting_approval", description := none
    metadata := [("orderRef", "o_77")] }

/-- Store holding only the orderTx transaction. -/
def orderState : DbState := { companies := [], transactions := [orderTx] }

/-- A manual update request asking for internalStatus declined with a note. -/
def declineRequest : UpdateStatusRequest :=
  { transactionId := "tx_8", internalStatus := some "declined"
    notes := some "manual decline" }

/-! Theorems about the embedded program. -/

/-- C5: a webhook request that fails signature verification (tampered body,
missing header, or stale timestamp) is answered with the 400-class response
and no store state of any kind changes. -/
theorem signature_failure_rejected_without_mutation (env : Env) (world : World)
    (st : DbState) :
    handleWebhook env world none st = (WebhookResponse.badRequest "Webhook Error", st) :=
  rfl

/-- C7: a verified event whose type matches none of the switch's cases is
acknowledged with the 200-class response tied to the JSON body
`{received: true}` and mutates neither the Transaction Store nor the Company
Store, whatever the environment and external-call outcomes. -/
theorem unknown_event_acknowledged_without_mutation (env : Env) (world : World)
    (event : StripeEvent) (st : DbState)
    (h : event.type ∉ handledEventTypes) :
    handleWebhook env world (some event) st = (WebhookResponse.received, st) := by
  simp only [handledEventTypes, List.mem_cons, List.not_mem_nil, or_false, not_or] at h
  obtain ⟨h1, h2, h3, h4, h5, h6, h7, h8⟩ := h
  simp [handleWebhook, handleEvent, h1, h2, h3, h4, h5, h6, h7, h8]

/-- Witness for C7 at a concrete unhandled event type. -/
theorem unknown_event_acknowledged_without_mutation_witness :
    handleWebhook
      { STRIPE_PRICE_BASIC_PLAN_ID := some "price_basic",
        STRIPE_PRICE_PREMIUM_PLAN_ID := some "price_premium",
        LOGGING_SERVICE_URL := some "http://log", NOTIFICATION_SERVICE_URL := none }
      { companyDbFails := false, notificationFails := true, loggingFails := true,
        retrieve := fun _ => none, nowSeconds := 1700000000 }
      (some { type := "some.unhandled.type", id := "evt_1", livemode := false,
              data_object :=
                { id := "obj_1", customer := some "cus_1", customer_email := none,
                  mode := none, subscription := none, payment_intent := none,
                  billing_reason := none, status := none, items := none,
                  current_period_end := none } })
      { companies := [], transactions := [] }
      = (WebhookResponse.received, { companies := [], transactions := [] }) :=
  unknown_event_acknowledged_without_mutation _ _ _ _ (by decide)

/-- C10: the fetch-single-transaction endpoint evaluates the unbound
identifier `transactionId` before reading its path parameter, so every request
gets the server-error response produced by the ReferenceError; the store is
untouched and neither the 400, the 404, nor the transaction payload is ever
returned. -/
theorem getTransactionById_always_reference_error (req : GetTransactionRequest)
    (st : DbState) :
    getTransactionById req st =
      (GetTransactionResponse.serverError "ReferenceError: transactionId is not defined", st) :=
  rfl

/-- Helper: the subscription-sync helper is a no-op on the company table when
no company matches the lookup key. -/
theorem updateCompanySubscriptionStatus_not_found (env : Env) (world : World)
    (companies : List Company) (cid : Option String) (sub : SubscriptionData)
    (h : companies.find? (fun c => c.stripeCustomerId = cid) = none) :
    updateCompanySubscriptionStatus env world companies cid sub = companies := by
  unfold updateCompanySubscriptionStatus updateCompanySubscriptionStatusBody
  cases hf : world.companyDbFails <;> simp [h]

/-- Helper: when the database access inside the subscription-sync helper
raises, the catch swallows the error and the company table is unchanged. -/
theorem updateCompanySubscriptionStatus_db_error (env : Env) (world : World)
    (companies : List Company) (cid : Option String) (sub : SubscriptionData)
    (h : world.companyDbFails = true) :
    updateCompanySubscriptionStatus env world companies cid sub = companies := by
  unfold updateCompanySubscriptionStatus updateCompanySubscriptionStatusBody
  simp [h]

/-- Helper: the access level the sync writes is "free" whenever the incoming
subscription status is canceled or unpaid. -/
theorem applyCompanyUpdate_canceled_or_unpaid_free (env : Env)
    (sub : SubscriptionData) (c : Company)
    (hst : sub.status = "canceled" ∨ sub.status = "unpaid") :
    (applyCompanyUpdate env sub c).accessLevel = "free" := by
  unfold applyCompanyUpdate
  simp only []
  rw [if_pos hst]

/-- C3: a subscription-sync invocation whose incoming status is canceled or
unpaid persists accessLevel "free": the matched company's stored row gets
accessLevel "free" (whatever tier its plan id would map to), and every row of
the resulting table is either an untouched original row or carries
accessLevel "free". -/
theorem canceled_or_unpaid_subscription_forces_free_access (env : Env)
    (world : World) (companies : List Company) (cid : Option String)
    (sub : SubscriptionData) (c0 : Company)
    (hfail : world.companyDbFails = false)
    (hfound : companies.find? (fun c => c.stripeCustomerId = cid) = some c0)
    (hst : sub.status = "canceled" ∨ sub.status = "unpaid") :
    (∃ c1 ∈ updateCompanySubscriptionStatus env world companies cid sub,
        c1.id = c0.id ∧ c1.accessLevel = "free" ∧
        c1.subscriptionStatus = some sub.status) ∧
    ∀ c ∈ updateCompanySubscriptionStatus env world companies cid sub,
      c ∈ companies ∨ c.accessLevel = "free" := by
  have hres : updateCompanySubscriptionStatus env world companies cid sub =
      companies.map (fun c =>
        if c.id = c0.id then applyCompanyUpdate env sub c else c) := by
    unfold updateCompanySubscriptionStatus updateCompanySubscriptionStatusBody
    simp [hfail, hfound]
  constructor
  · refine ⟨applyCompanyUpdate env sub c0, ?_, ?_, ?_, ?_⟩
    · rw [hres]
      have hc0 : c0 ∈ companies := List.mem_of_find?_eq_some hfound
      have : applyCompanyUpdate env sub c0 =
          (fun c => if c.id = c0.id then applyCompanyUpdate env sub c else c) c0 := by
        simp
      rw [this]
      exact List.mem_map_of_mem _ hc0
    · unfold applyCompanyUpdate
      simp
    · exact applyCompanyUpdate_canceled_or_unpaid_free env sub c0 hst
    · unfold applyCompanyUpdate
      simp
  · intro c hc
    rw [hres] at hc
    rcases List.mem_map.mp hc with ⟨a, ha, rfl⟩
    by_cases hid : a.id = c0.id
    · right
      simp only [hid, if_pos]
      exact applyCompanyUpdate_canceled_or_unpaid_free env sub a hst
    · left
      simpa [hid] using ha

/-- Witness for C3: a canceled subscription whose plan id maps to "premium"
still persists accessLevel "free" for the matched company. -/
theorem canceled_or_unpaid_subscription_forces_free_access_witness :
    (∃ c1 ∈ updateCompanySubscriptionStatus envStd worldStd [acmeCompany]
        (some "cus_1") canceledPremiumSub,
        c1.id = acmeCompany.id ∧ c1.accessLevel = "free" ∧
        c1.subscriptionStatus = some canceledPremiumSub.status) ∧
    ∀ c ∈ updateCompanySubscriptionStatus envStd worldStd [acmeCompany]
        (some "cus_1") canceledPremiumSub,
      c ∈ [acmeCompany] ∨ c.accessLevel = "free" :=
  canceled_or_unpaid_subscription_forces_free_access envStd worldStd [acmeCompany]
    (some "cus_1") canceledPremiumSub acmeCompany
    rfl (by decide) (Or.inl rfl)

/-- C6: a verified subscription-lifecycle event whose customer reference
matches no company row by stripeCustomerId leaves both stores untouched and is
still acknowledged with `{received: true}`, whatever the environment and
external-call outcomes. -/
theorem missing_company_subscription_event_is_acknowledged_noop (env : Env)
    (world : World) (event : StripeEvent) (st : DbState) (cust : String)
    (htype : event.type = "customer.subscription.created" ∨
             event.type = "customer.subscription.updated" ∨
             event.type = "customer.subscription.deleted")
    (hcust : event.data_object.customer = some cust)
    (hnone : ∀ c ∈ st.companies, c.stripeCustomerId ≠ some cust) :
    handleWebhook env world (some event) st = (WebhookResponse.received, st) := by
  have hfind : ∀ sub : SubscriptionData,
      updateCompanySubscriptionStatus env world st.companies
        event.data_object.customer sub = st.companies := by
    intro sub
    apply updateCompanySubscriptionStatus_not_found
    rw [hcust]
    rw [List.find?_eq_none]
    intro c hc
    simpa using hnone c hc
  rcases htype with h | h | h <;>
    simp [handleWebhook, handleEvent, h, hfind]

/-- Witness for C6 at a concrete subscription event for an unknown customer. -/
theorem missing_company_subscription_event_is_acknowledged_noop_witness :
    handleWebhook envStd worldStd
      (some { type := "customer.subscription.updated", id := "evt_6", livemode := false,
              data_object :=
                { id := "sub_77", customer := some "cus_unknown", customer_email := none,
                  mode := none, subscription := none, payment_intent := none,
                  billing_reason := none, status := some "active",
                  items := some [{ price := { id := "price_premium" } }],
                  current_period_end := some 1800000000 } })
      { companies := [acmeCompany], transactions := [] }
      = (WebhookResponse.received, { companies := [acmeCompany], transactions := [] }) :=
  missing_company_subscription_event_is_acknowledged_noop _ _ _ _ "cus_unknown"
    (Or.inr (Or.inl rfl)) rfl (by decide)

/-- C9: even when the database lookup or update inside the subscription-sync
helper raises, the helper's catch swallows the error, the state is unchanged,
and the endpoint still acknowledges the subscription-lifecycle event with
`{received: true}` — a failed persistence never triggers redelivery. -/
theorem subscription_sync_db_error_still_acknowledged (env : Env)
    (world : World) (event : StripeEvent) (st : DbState)
    (htype : event.type = "customer.subscription.created" ∨
             event.type = "customer.subscription.updated" ∨
             event.type = "customer.subscription.deleted")
    (hfail : world.companyDbFails = true) :
    handleWebhook env world (some event) st = (WebhookResponse.received, st) := by
  have hupd : ∀ (cid : Option String) (sub : SubscriptionData),
      updateCompanySubscriptionStatus env world st.companies cid sub = st.companies :=
    fun cid sub => updateCompanySubscriptionStatus_db_error env world st.companies
      cid sub hfail
  rcases htype with h | h | h <;>
    simp [handleWebhook, handleEvent, h, hupd]

/-- Witness for C9: a subscription update for an existing company is still
acknowledged when the company-table access raises. -/
theorem subscription_sync_db_error_still_acknowledged_witness :
    handleWebhook envStd
      { companyDbFails := true, notificationFails := false, loggingFails := false,
        retrieve := fun _ => none, nowSeconds := 1700000000 }
      (some { type := "customer.subscription.updated", id := "evt_9", livemode := false,
              data_object :=
                { id := "sub_9", customer := some "cus_1", customer_email := none,
                  mode := none, subscription := none, payment_intent := none,
                  billing_reason := none, status := some "active",
                  items := some [{ price := { id := "price_premium" } }],
                  current_period_end := some 1800000000 } })
      { companies := [acmeCompany], transactions := [] }
      = (WebhookResponse.received, { companies := [acmeCompany], transactions := [] }) :=
  subscription_sync_db_error_still_acknowledged _ _ _ _
    (Or.inr (Or.inl rfl)) rfl

/-- Helper: the row transformation of the payment-intent UPDATE is idempotent
(it writes constants and leaves the WHERE key unchanged). -/
theorem applyPaymentUpdate_idem (s i p : String) (t : PaymentTransaction) :
    applyPaymentUpdate s i p (applyPaymentUpdate s i p t) =
      applyPaymentUpdate s i p t := by
  unfold applyPaymentUpdate
  by_cases h : t.stripePaymentIntentId = p <;> simp [h]

/-- Helper: the webhook handler on a payment_intent.succeeded event reduces to
mapping the succeed-update over the transaction table and acknowledging. -/
theorem handleWebhook_payment_intent_succeeded (env : Env) (world : World)
    (event : StripeEvent) (st : DbState)
    (h : event.type = "payment_intent.succeeded") :
    handleWebhook env world (some event) st =
      (WebhookResponse.received,
       { st with transactions := st.transactions.map (applyPaymentUpdate "succeeded" "awaiting_approval" event.data_object.id) }) := by
  simp [handleWebhook, handleEvent, h, paymentTransactionUpdate, statusEnum,
    internalStatusEnum]

/-- C1: applying the payment_intent.succeeded handler twice in succession
yields exactly the stored state of applying it once; after either, the handler
acknowledged and every transaction whose stripePaymentIntentId matches the
event's payment-intent id holds status "succeeded" and internalStatus
"awaiting_approval". -/
theorem payment_intent_succeeded_idempotent (env : Env) (world : World)
    (event : StripeEvent) (st : DbState)
    (htype : event.type = "payment_intent.succeeded") :
    (handleWebhook env world (some event)
        (handleWebhook env world (some event) st).2).2
      = (handleWebhook env world (some event) st).2 ∧
    (handleWebhook env world (some event) st).1 = WebhookResponse.received ∧
    ∀ t ∈ (handleWebhook env world (some event) st).2.transactions,
      t.stripePaymentIntentId = event.data_object.id →
        t.status = "succeeded" ∧ t.internalStatus = "awaiting_approval" := by
  rw [handleWebhook_payment_intent_succeeded env world event st htype]
  rw [handleWebhook_payment_intent_succeeded env world event _ htype]
  refine ⟨?_, rfl, ?_⟩
  · simp only [List.map_map]
    refine congrArg (fun ts => DbState.mk st.companies ts) ?_
    refine List.map_congr_left ?_
    intro a _
    simp only [Function.comp_apply]
    exact applyPaymentUpdate_idem _ _ _ a
  · intro t ht hpid
    rcases List.mem_map.mp ht with ⟨a, ha, rfl⟩
    unfold applyPaymentUpdate
    by_cases h2 : a.stripePaymentIntentId = event.data_object.id
    · simp [h2]
    · simp only [applyPaymentUpdate, if_neg h2] at hpid
      exact absurd hpid h2

/-- Witness for C1 at a concrete pending transaction and matching event. -/
theorem payment_intent_succeeded_idempotent_witness :
    (handleWebhook envStd worldStd (some piSucceededEvent)
        (handleWebhook envStd worldStd (some piSucceededEvent) piState).2).2
      = (handleWebhook envStd worldStd (some piSucceededEvent) piState).2 ∧
    (handleWebhook envStd worldStd (some piSucceededEvent) piState).1
      = WebhookResponse.received ∧
    ∀ t ∈ (handleWebhook envStd worldStd (some piSucceededEvent) piState).2.transactions,
      t.stripePaymentIntentId = piSucceededEvent.data_object.id →
        t.status = "succeeded" ∧ t.internalStatus = "awaiting_approval" :=
  payment_intent_succeeded_idempotent envStd worldStd piSucceededEvent piState rfl

/-- C2 (code bug): in the invoice.payment_failed case the payment-failure
notification is awaited without try/catch (unlike every other notification
site), so when the sink call fails the subscription-sync mutation has already
committed but the endpoint answers with a server error instead of
acknowledging — the sender will redeliver an already-applied event. -/
theorem invoice_payment_failed_notification_failure_breaks_acknowledgment :
    handleWebhook envNotify worldNotifyFail (some invoiceFailedEvent) acmeState
      = (WebhookResponse.serverError "notification post failed",
         { companies := [acmeAfterPastDue], transactions := [] }) := by
  rfl

/-- C4 (code bug): a payment_intent.payment_failed event for the pending pi_1
transaction attempts to write internalStatus 'declined', a value outside the
model's ENUM {awaiting_approval, approved, rejected, fulfilled,
canceled_by_business}; the UPDATE raises, no row changes, and the endpoint
answers with a server error instead of committing failed/declined. -/
theorem payment_intent_failed_update_rejected_by_enum :
    handleWebhook envStd worldStd (some piFailedEvent) piState
      = (WebhookResponse.serverError "invalid input value for enum", piState) := by
  rfl

/-- C8 (code bug): a manual request for internalStatus 'declined' passes the
endpoint's own validation list, the row is loaded and mutated in memory, but
`transaction.save()` is rejected by the column ENUM (which has 'rejected', not
'declined'): the endpoint raises a server error and nothing persists, instead
of committing the new status and merged note. -/
theorem declined_internal_status_save_rejected_by_enum :
    updateTransactionInternalStatus declineRequest orderState
      = (UpdateStatusResponse.serverError "invalid input value for enum", orderState) := by
  rfl

end StripeBackend
